import Mathlib

/-!
Shallow embedding of `weread_to_feishu.py`: a three-stage pipeline
(fetch books from the WeRead API, transform each record, batch-write to a
Feishu bitable).  JSON values are modelled by the inductive `JVal`; Python
operations that can raise are modelled in `Except String`; the network is
modelled by oracles (`Nat → HttpResult`, `Nat → Option (List JVal)`)
supplying the outcome of each HTTP call.  `datetime.fromtimestamp` /
`strftime` are modelled for a process running with the UTC timezone.
-/

/-- A JSON value, as delivered by either HTTP API.  Numbers are modelled as
integers (every field the script reads — `readingProgress`, `markedStatus`,
`finishReadingTime`, `code` — is integral). -/
inductive JVal where
  | null : JVal
  | bool : Bool → JVal
  | int : Int → JVal
  | str : String → JVal
  | arr : List JVal → JVal
  | obj : List (String × JVal) → JVal

/-- Python truthiness of a JSON value (`None`, `False`, `0`, `""`, `[]`,
and the empty dict are falsy). -/
def JVal.truthy : JVal → Bool
  | .null => false
  | .bool b => b
  | .int n => n != 0
  | .str s => !s.isEmpty
  | .arr xs => !xs.isEmpty
  | .obj kvs => !kvs.isEmpty

/-- Python `v == n` for an integer literal `n`: integers compare by value,
and `bool` is an `int` subtype (`True == 1`, `False == 0`); values of any
other type are never equal to an integer. -/
def pyEqInt : JVal → Int → Bool
  | .int m, n => m == n
  | .bool b, n => (if b then (1 : Int) else 0) == n
  | _, _ => false

/-- Python `v.get(k, d)`: returns the entry for `k`, or the default `d` when
the key is absent; raises `AttributeError` when `v` is not a dict. -/
def pyGet (v : JVal) (k : String) (d : JVal) : Except String JVal :=
  match v with
  | .obj kvs => .ok ((kvs.lookup k).getD d)
  | _ => .error "AttributeError: get"

/-! ## Date conversion (`datetime.fromtimestamp(ts).strftime("%Y-%m-%d")`) -/

/-- Civil date (year, month, day) of a day count relative to 1970-01-01,
the standard days-to-civil algorithm on the proleptic Gregorian calendar. -/
def civilFromDays (z : Int) : Int × Nat × Nat :=
  let a : Int := z + 719468
  let era : Int := Int.fdiv a 146097
  let doe : Nat := (a - era * 146097).toNat
  let yoe : Nat := (doe - doe / 1460 + doe / 36524 - doe / 146096) / 365
  let doy : Nat := doe - (365 * yoe + yoe / 4 - yoe / 100)
  let mp : Nat := (5 * doy + 2) / 153
  let d : Nat := doy - (153 * mp + 2) / 5 + 1
  let m : Nat := if mp < 10 then mp + 3 else mp - 9
  let y : Int := (yoe : Int) + era * 400 + (if m ≤ 2 then 1 else 0)
  (y, m, d)

/-- Two-digit zero-padded decimal rendering (the `%m` / `%d` directives). -/
def pad2 (n : Nat) : String := if n < 10 then "0" ++ toString n else toString n

/-- The `"%Y-%m-%d"` format string. -/
def formatDate (y : Int) (m d : Nat) : String :=
  toString y ++ "-" ++ pad2 m ++ "-" ++ pad2 d

/-- `datetime.fromtimestamp(ts).strftime("%Y-%m-%d")` under TZ=UTC:
the calendar date of the epoch second `ts`, or `none` when the date falls
outside `datetime`'s supported years 1–9999 (where `fromtimestamp`
raises and the script's bare `except` drops the field). -/
def epochToDateStr (ts : Int) : Option String :=
  let c := civilFromDays (Int.fdiv ts 86400)
  if 1 ≤ c.1 ∧ c.1 ≤ 9999 then some (formatDate c.1 c.2.1 c.2.2) else none

/-- The timestamp argument accepted by `datetime.fromtimestamp`: an integer
(or a `bool`, which Python treats as 0/1); any other JSON value raises
`TypeError`, which the script's bare `except` swallows. -/
def pyTimestamp : JVal → Option Int
  | .int n => some n
  | .bool b => some (if b then 1 else 0)
  | _ => none

/-! ## Transform (`transform_book_to_feishu_record`, lines 97–129) -/

/-- A destination record: the `{"fields": fields}` payload built per book,
an insertion-ordered mapping from Feishu column name to value. -/
structure FeishuRecord where
  fields : List (String × JVal)

/-- The Feishu attachment payload for a cover URL:
`[{"text": cover_url, "type": "url"}]` (line 113). -/
def attachOf (s : String) : JVal :=
  .arr [.obj [("text", .str s), ("type", .str "url")]]

/-- The four unconditional columns (lines 102–107): title and author with
placeholder defaults, reading progress with `or 0` coercion of falsy
values, and the binary reading status derived from `markedStatus == 4`. -/
def baseFields (kvs : List (String × JVal)) : List (String × JVal) :=
  [("书名", (kvs.lookup "title").getD (JVal.str "未知书名")),
   ("作者", (kvs.lookup "author").getD (JVal.str "未知作者")),
   ("阅读进度",
     if ((kvs.lookup "readingProgress").getD (JVal.int 0)).truthy
     then (kvs.lookup "readingProgress").getD (JVal.int 0) else JVal.int 0),
   ("阅读状态",
     JVal.str (if pyEqInt ((kvs.lookup "markedStatus").getD JVal.null) 4
               then "读完" else "在读"))]

/-- Python `s.startswith(pre)`, computed on the character sequences. -/
def pyStartsWith (s pre : String) : Bool := pre.data.isPrefixOf s.data

/-- Lines 110–113: `if cover_url and cover_url.startswith("http")`.
A falsy cover value is skipped; a truthy non-string raises
`AttributeError` at `.startswith`. -/
def coverPart (cu : JVal) : Except String (List (String × JVal)) :=
  if cu.truthy then
    match cu with
    | .str s =>
        .ok (if pyStartsWith s "http" then [("封面", attachOf s)] else [])
    | _ => .error "AttributeError: startswith"
  else .ok []

/-- One step of the comprehension `x["title"]` (line 118): raises
`KeyError` when the entry has no title, `TypeError` when it is not a dict. -/
def categoryTitle : JVal → Except String JVal
  | .obj kvs =>
      match kvs.lookup "title" with
      | some t => .ok t
      | none => .error "KeyError: title"
  | _ => .error "TypeError: not a dict"

/-- Lines 116–118: a truthy `categories` value is iterated with
`[x["title"] for x in categories]`; a truthy non-list raises `TypeError`
(iterating it cannot yield dict elements). -/
def categoriesPart (cv : JVal) : Except String (List (String × JVal)) :=
  if cv.truthy then
    match cv with
    | .arr xs =>
        match xs.mapM categoryTitle with
        | .ok ts => .ok [("分类", JVal.arr ts)]
        | .error e => .error e
    | _ => .error "TypeError: not iterable of dicts"
  else .ok []

/-- Lines 121–126: when the key `finishReadingTime` is present and
`fromtimestamp` + `strftime` succeed, the completion-date column is added;
every failure inside the `try` is swallowed and the column omitted. -/
def finishTimePart (kvs : List (String × JVal)) : List (String × JVal) :=
  match kvs.lookup "finishReadingTime" with
  | some v =>
      match pyTimestamp v with
      | some ts =>
          match epochToDateStr ts with
          | some s => [("完成时间", JVal.str s)]
          | none => []
      | none => []
  | none => []

/-- `transform_book_to_feishu_record(book)` (lines 97–129): builds the
fields dict in insertion order (the four base columns, then cover,
categories and completion date when applicable) and wraps it as
`{"fields": fields}`.  `book.get("book", {})` requires `book` to be a
dict, and every later `book_info.get` requires `book_info` to be one. -/
def transform_book_to_feishu_record (book : JVal) : Except String FeishuRecord :=
  match pyGet book "book" (JVal.obj []) with
  | .error e => .error e
  | .ok (.obj kvs) =>
      match coverPart ((kvs.lookup "cover").getD (JVal.str "")) with
      | .error e => .error e
      | .ok coverFields =>
          match categoriesPart ((kvs.lookup "categories").getD JVal.null) with
          | .error e => .error e
          | .ok catFields =>
              .ok ⟨baseFields kvs ++ coverFields ++ catFields ++ finishTimePart kvs⟩
  | .ok _ => .error "AttributeError: get"

/-! Accessors into the source record, mirroring `book.get("book", {})`
followed by `book_info.get(...)`, used to state the transform claims. -/

/-- The `book_info` dict of a source record, when it is one. -/
def bookInfoObj (book : JVal) : Option (List (String × JVal)) :=
  match book with
  | .obj bkvs =>
      match (bkvs.lookup "book").getD (JVal.obj []) with
      | .obj kvs => some kvs
      | _ => none
  | _ => none

/-- The raw value of a `book_info` field of the source record. -/
def sourceField (book : JVal) (k : String) : Option JVal :=
  (bookInfoObj book).bind (fun kvs => kvs.lookup k)

/-- `book_info.get("markedStatus")`. -/
def sourceMarkedStatus (book : JVal) : JVal :=
  (sourceField book "markedStatus").getD JVal.null

/-- `book_info.get("cover", "")`. -/
def sourceCover (book : JVal) : JVal :=
  (sourceField book "cover").getD (JVal.str "")

/-- The `finishReadingTime` entry, when the key is present. -/
def sourceFinishTime (book : JVal) : Option JVal :=
  sourceField book "finishReadingTime"

/-- Whether a cover value is a string starting with `"http"` — the exact
condition under which line 113 adds the cover column. -/
def coverHttp : JVal → Bool
  | .str s => pyStartsWith s "http"
  | _ => false

/-! ## HTTP outcomes -/

/-- The outcome of one `requests` call: either the call raised
(network error / timeout), or a response arrived with a status code and a
body (`none` when `response.json()` raises `JSONDecodeError`). -/
inductive HttpResult where
  | exn : String → HttpResult
  | resp : Nat → Option JVal → HttpResult

/-- Rough model of Python `str(v)` as interpolated into log messages. -/
def pyStr : JVal → String
  | .null => "None"
  | .bool b => if b then "True" else "False"
  | .int n => toString n
  | .str s => s
  | .arr _ => "<list>"
  | .obj _ => "<dict>"

/-! ## Credential fetcher (`get_feishu_access_token`, lines 75–95) -/

/-- `get_feishu_access_token()` (lines 75–95): parses the response body and
returns `tenant_access_token` when the embedded `code` equals 0 — the HTTP
status code is never consulted; every exception (network error, timeout,
`JSONDecodeError`, `.get` on a non-dict body) is caught and reported as a
failure with a reason.  No retry: exactly one request per call. -/
def get_feishu_access_token (h : HttpResult) : Except String JVal :=
  match h with
  | .exn msg => .error ("请求飞书API失败: " ++ msg)
  | .resp _ none => .error ("请求飞书API失败: JSONDecodeError")
  | .resp _ (some body) =>
      match body with
      | .obj kvs =>
          if pyEqInt ((kvs.lookup "code").getD JVal.null) 0 then
            .ok ((kvs.lookup "tenant_access_token").getD JVal.null)
          else
            .error ("获取飞书令牌失败: " ++ pyStr ((kvs.lookup "msg").getD JVal.null))
      | _ => .error ("请求飞书API失败: AttributeError")

/-- `isOk` test on an `Except` result. -/
def isOkE : Except ε α → Bool
  | .ok _ => true
  | .error _ => false

/-- The condition under which `get_feishu_access_token` actually returns a
token, read off the source: the body parses as a dict whose `code` entry
Python-equals 0.  The HTTP status plays no role. -/
def tokenSuccessCond : HttpResult → Bool
  | .resp _ (some (.obj kvs)) => pyEqInt ((kvs.lookup "code").getD JVal.null) 0
  | _ => false

/-! ## Source reader with retry (`get_weread_books_with_retry`, lines 23–73) -/

/-- `retry_if_result_none(result)` (lines 23–25): retry when the attempt
returned `None` (any failure path) or the empty list. -/
def retry_if_result_none : Option (List JVal) → Bool
  | none => true
  | some xs => xs.isEmpty

/-- `stop_max_attempt_number=3` of the `@retry` decorator (line 27). -/
def stop_max_attempt_number : Nat := 3

/-- `wait_fixed=2000` (milliseconds) of the `@retry` decorator (line 27). -/
def wait_fixed : Nat := 2000

/-- The `retrying` library's loop: up to `n` attempts of `f` (attempt `i`
yielding `f i`), sleeping `wait_fixed` ms between attempts, returning the
first non-retryable result; when all attempts are retryable it raises
`RetryError` (modelled as `.error ()`).  Result: (outcome, attempts made,
list of sleeps performed). -/
def runRetry (f : Nat → Option (List JVal)) :
    Nat → Nat → Except Unit (Option (List JVal)) × Nat × List Nat
  | _, 0 => (.error (), 0, [])
  | i, 1 =>
      if retry_if_result_none (f i) then (.error (), 1, [])
      else (.ok (f i), 1, [])
  | i, n + 2 =>
      if retry_if_result_none (f i) then
        ((runRetry f (i + 1) (n + 1)).1,
         (runRetry f (i + 1) (n + 1)).2.1 + 1,
         wait_fixed :: (runRetry f (i + 1) (n + 1)).2.2)
      else (.ok (f i), 1, [])

/-- `get_weread_books_with_retry()` (lines 27–73): the body returns the
parsed `books` list on HTTP 200 and `None` on any failure, and the
decorator retries up to 3 times with a fixed 2000 ms wait while the result
is `None` or `[]`.  The oracle `f` gives each attempt's raw outcome. -/
def get_weread_books_with_retry (f : Nat → Option (List JVal)) :
    Except Unit (Option (List JVal)) × Nat × List Nat :=
  runRetry f 0 stop_max_attempt_number

/-! ## Batching writer (`batch_update_feishu_table`, lines 131–181) -/

/-- `batch_size = 10` (line 143). -/
def batch_size : Nat := 10

/-- `records[i:i+bs]` slicing loop of `range(0, len(records), bs)`, with
fuel (for `bs ≥ 1` a fuel of `xs.length` always suffices). -/
def chunkAux (bs : Nat) : Nat → List α → List (List α)
  | 0, _ => []
  | _ + 1, [] => []
  | fuel + 1, x :: rest => (x :: rest).take bs :: chunkAux bs fuel ((x :: rest).drop bs)

/-- The successive slices `records[i:i+bs]` for `i = 0, bs, 2*bs, …`. -/
def chunkList (bs : Nat) (xs : List α) : List (List α) :=
  chunkAux bs xs.length xs

/-- Whether one batch-create call succeeded (lines 164–166): HTTP status
200 and a JSON body whose `code` entry Python-equals 0; an exception, a
non-200 status, an unparsable body, or an embedded error code all count
the whole chunk as failed. -/
def writeOk : HttpResult → Bool
  | .resp 200 (some (.obj kvs)) => pyEqInt ((kvs.lookup "code").getD JVal.null) 0
  | _ => false

/-- The loop body's success counting (lines 156–175): chunk `i` adds its
full length to `success_count` when its call succeeded, nothing otherwise;
every chunk is attempted regardless of earlier failures. -/
def goBatches (net : Nat → HttpResult) : Nat → List (List FeishuRecord) → Nat
  | _, [] => 0
  | i, c :: rest => (if writeOk (net i) then c.length else 0) + goBatches net (i + 1) rest

/-- Observable outcome of one `batch_update_feishu_table` run: the payload
of each issued write call in order, the final `success_count`, the number
of `time.sleep(1)` pacing delays, and the returned boolean. -/
structure SyncResult where
  calls : List (List FeishuRecord)
  success_count : Nat
  sleeps : Nat
  returned : Bool

/-- `batch_update_feishu_table(records, access_token)` (lines 131–181):
an empty input returns `False` immediately with no call and no sleep;
otherwise the records are written in slices of `batch_size`, one call per
slice with one pacing sleep after each, and the function returns
`success_count > 0`.  `net i` is the outcome of the `i`-th call. -/
def batch_update_feishu_table (records : List FeishuRecord)
    (net : Nat → HttpResult) : SyncResult :=
  if records.isEmpty then
    { calls := [], success_count := 0, sleeps := 0, returned := false }
  else
    { calls := chunkList batch_size records
      success_count := goBatches net 0 (chunkList batch_size records)
      sleeps := (chunkList batch_size records).length
      returned := decide (0 < goBatches net 0 (chunkList batch_size records)) }

/-! ## Configuration and `main` (lines 183–236) -/

/-- The five environment variables read at startup (lines 12–16); `none`
models an unset variable. -/
structure Config where
  WEREAD_COOKIE : Option String
  FEISHU_APP_ID : Option String
  FEISHU_APP_SECRET : Option String
  FEISHU_APP_TOKEN : Option String
  FEISHU_TABLE_ID : Option String

/-- Python truthiness of an environment value: unset or empty is falsy. -/
def envTruthy : Option String → Bool
  | none => false
  | some s => !s.isEmpty

/-- The `required_vars` dict of `validate_environment` (lines 185–191). -/
def required_vars (cfg : Config) : List (String × Option String) :=
  [("WEREAD_COOKIE", cfg.WEREAD_COOKIE),
   ("FEISHU_APP_ID", cfg.FEISHU_APP_ID),
   ("FEISHU_APP_SECRET", cfg.FEISHU_APP_SECRET),
   ("FEISHU_APP_TOKEN", cfg.FEISHU_APP_TOKEN),
   ("FEISHU_TABLE_ID", cfg.FEISHU_TABLE_ID)]

/-- `validate_environment()` (lines 183–199): returns whether all required
values are truthy together with the list of missing names (the names the
abort message `缺少环境变量: …` joins with `", "`). -/
def validate_environment (cfg : Config) : Bool × List String :=
  let missing := ((required_vars cfg).filter (fun p => !envTruthy p.2)).map Prod.fst
  (missing.isEmpty, missing)

/-- Observable trace of one `main()` run: how many token-endpoint calls
and source-read attempts were issued, the payloads of the write calls, and
whether the run died with an uncaught exception. -/
structure RunTrace where
  tokenCalls : Nat
  readAttempts : Nat
  writeCalls : List (List FeishuRecord)
  crashed : Bool

namespace Script

/-- `main()` (lines 201–236): validate configuration (no network before
this passes), fetch the token, fetch the books with retry (a `RetryError`
from exhausted attempts propagates uncaught), transform every book (a
transform exception propagates uncaught), then batch-write.  `tok` is the
token call's outcome, `reads` the per-attempt source-read outcomes, `net`
the per-call write outcomes. -/
def main (cfg : Config) (tok : HttpResult)
    (reads : Nat → Option (List JVal)) (net : Nat → HttpResult) : RunTrace :=
  if (validate_environment cfg).1 = false then
    { tokenCalls := 0, readAttempts := 0, writeCalls := [], crashed := false }
  else
    match get_feishu_access_token tok with
    | .error _ => { tokenCalls := 1, readAttempts := 0, writeCalls := [], crashed := false }
    | .ok t =>
      if t.truthy = false then
        { tokenCalls := 1, readAttempts := 0, writeCalls := [], crashed := false }
      else
        match (get_weread_books_with_retry reads).1 with
        | .error _ =>
            { tokenCalls := 1, readAttempts := (get_weread_books_with_retry reads).2.1,
              writeCalls := [], crashed := true }
        | .ok r =>
          if (r.getD []).isEmpty then
            { tokenCalls := 1, readAttempts := (get_weread_books_with_retry reads).2.1,
              writeCalls := [], crashed := false }
          else
            match (r.getD []).mapM transform_book_to_feishu_record with
            | .error _ =>
                { tokenCalls := 1, readAttempts := (get_weread_books_with_retry reads).2.1,
                  writeCalls := [], crashed := true }
            | .ok recs =>
                { tokenCalls := 1, readAttempts := (get_weread_books_with_retry reads).2.1,
                  writeCalls := (batch_update_feishu_table recs net).calls,
                  crashed := false }

end Script

/-! ## Helper lemmas about the chunking loop -/

theorem chunkAux_flatten {α : Type} (bs : Nat) (hbs : 0 < bs) :
    ∀ (fuel : Nat) (xs : List α), xs.length ≤ fuel → (chunkAux bs fuel xs).flatten = xs := by
  intro fuel
  induction fuel with
  | zero =>
      intro xs h
      have : xs = [] := List.eq_nil_of_length_eq_zero (Nat.le_zero.mp h)
      subst this
      rfl
  | succ n ih =>
      intro xs h
      cases xs with
      | nil => rfl
      | cons x rest =>
          have hlen : ((x :: rest).drop bs).length ≤ n := by
            simp only [List.length_drop, List.length_cons] at *
            omega
          simp only [chunkAux, List.flatten_cons, ih _ hlen]
          exact List.take_append_drop bs (x :: rest)

theorem chunkAux_mem_length {α : Type} (bs : Nat) :
    ∀ (fuel : Nat) (xs : List α) (c : List α), c ∈ chunkAux bs fuel xs → c.length ≤ bs := by
  intro fuel
  induction fuel with
  | zero => intro xs c hc; simp [chunkAux] at hc
  | succ n ih =>
      intro xs c hc
      cases xs with
      | nil => simp [chunkAux] at hc
      | cons x rest =>
          simp only [chunkAux, List.mem_cons] at hc
          rcases hc with rfl | hc
          · simp only [List.length_take]
            exact Nat.min_le_left bs (x :: rest).length
          · exact ih _ _ hc

theorem chunkAux_length_ten {α : Type} :
    ∀ (fuel : Nat) (xs : List α), xs.length ≤ fuel →
      (chunkAux 10 fuel xs).length = (xs.length + 9) / 10 := by
  intro fuel
  induction fuel with
  | zero =>
      intro xs h
      have : xs = [] := List.eq_nil_of_length_eq_zero (Nat.le_zero.mp h)
      subst this
      simp [chunkAux]
  | succ n ih =>
      intro xs h
      cases xs with
      | nil => simp [chunkAux]
      | cons x rest =>
          have hlen : ((x :: rest).drop 10).length ≤ n := by
            simp only [List.length_drop, List.length_cons] at *
            omega
          simp only [chunkAux, List.length_cons, ih _ hlen, List.length_drop]
          omega

/-- C4 — For every input sequence of N destination records and the batch
size constant, the batching writer issues exactly `ceil(N / batch_size)`
write calls, each carrying at most `batch_size` records, and the records
appear in the write calls in the input order (their concatenation is the
input sequence). -/
theorem writer_batches_ceil_ordered (records : List FeishuRecord) (net : Nat → HttpResult) :
    ((batch_update_feishu_table records net).calls).length
        = (records.length + (batch_size - 1)) / batch_size ∧
    (∀ c ∈ (batch_update_feishu_table records net).calls, c.length ≤ batch_size) ∧
    ((batch_update_feishu_table records net).calls).flatten = records := by
  cases hre : records.isEmpty with
  | true =>
      have : records = [] := List.isEmpty_iff.mp hre
      subst this
      refine ⟨by simp [batch_update_feishu_table, batch_size], ?_, rfl⟩
      intro c hc
      simp [batch_update_feishu_table] at hc
  | false =>
      unfold batch_update_feishu_table
      rw [hre]
      simp only [Bool.false_eq_true, if_false, chunkList, batch_size]
      exact ⟨chunkAux_length_ten _ _ le_rfl,
             fun c hc => chunkAux_mem_length 10 _ _ c hc,
             chunkAux_flatten 10 (by omega) _ _ le_rfl⟩

/-! ## Helper lemma for the success count -/

theorem goBatches_eq_sum (net : Nat → HttpResult) :
    ∀ (cs : List (List FeishuRecord)) (i : Nat),
      goBatches net i cs
        = ((cs.enumFrom i).map (fun p => if writeOk (net p.1) then p.2.length else 0)).sum := by
  intro cs
  induction cs with
  | nil => intro i; rfl
  | cons c rest ih =>
      intro i
      simp only [goBatches, List.enumFrom, List.map_cons, List.sum_cons, ih (i + 1)]

/-- The concrete 23-record scenario of C5: batch size 10, second call
fails, others succeed. -/
def records23 : List FeishuRecord := List.replicate 23 ⟨[]⟩

/-- A successful batch-create outcome: HTTP 200 with a `code 0` body. -/
def okWrite : HttpResult := .resp 200 (some (.obj [("code", .int 0)]))

/-- The write-call outcomes of the C5 scenario: call 1 (the second call)
fails, every other call succeeds. -/
def net23 : Nat → HttpResult := fun i => if i == 1 then .resp 500 none else okWrite

/-- C5 — Each chunk either fully succeeds (its whole length added to the
succeeded count) or fully fails (zero counted), remaining chunks are still
attempted; the run is reported successful exactly when `succeeded > 0`;
and in the 23-record scenario with batch size 10 where only the second
call fails, the chunks have sizes [10, 10, 3] and the summary reports
13/23 succeeded (a nominally successful run). -/
theorem writer_per_chunk_success_and_scenario :
    (∀ (records : List FeishuRecord) (net : Nat → HttpResult),
        (batch_update_feishu_table records net).returned
          = decide (0 < (batch_update_feishu_table records net).success_count) ∧
        (batch_update_feishu_table records net).success_count
          = (((batch_update_feishu_table records net).calls).enum.map
              (fun p => if writeOk (net p.1) then p.2.length else 0)).sum) ∧
    (batch_update_feishu_table records23 net23).calls.map List.length = [10, 10, 3] ∧
    (batch_update_feishu_table records23 net23).success_count = 13 ∧
    records23.length = 23 ∧
    (batch_update_feishu_table records23 net23).returned = true := by
  refine ⟨?_, rfl, rfl, rfl, rfl⟩
  intro records net
  cases hre : records.isEmpty with
  | true =>
      have : records = [] := List.isEmpty_iff.mp hre
      subst this
      exact ⟨rfl, rfl⟩
  | false =>
      unfold batch_update_feishu_table
      rw [hre]
      simp only [Bool.false_eq_true, if_false]
      refine ⟨?_, goBatches_eq_sum net _ 0⟩
      trivial

/-- C10 — Invoked on an empty record sequence, the writer returns `False`
immediately: zero write calls, zero pacing sleeps, a zero success count. -/
theorem writer_empty_input_fails (net : Nat → HttpResult) :
    batch_update_feishu_table [] net
      = { calls := [], success_count := 0, sleeps := 0, returned := false } := rfl

/-! ## Retry exhaustion (C2) -/

/-- C2 — When every one of the 3 attempts yields an empty or absent
result, the retry wrapper makes exactly 3 attempts with the two fixed
2000 ms backoffs between them, surfaces a failed result (the library's
`RetryError`) to its caller, so the pipeline aborts: any `main` run with
these read outcomes issues zero write calls. -/
theorem retry_exhaustion_no_writes (reads : Nat → Option (List JVal))
    (h : ∀ i, i < stop_max_attempt_number → retry_if_result_none (reads i) = true) :
    (get_weread_books_with_retry reads).1 = .error () ∧
    (get_weread_books_with_retry reads).2.1 = 3 ∧
    (get_weread_books_with_retry reads).2.2 = [wait_fixed, wait_fixed] ∧
    (∀ cfg tok net, (Script.main cfg tok reads net).writeCalls = []) := by
  have h0 := h 0 (by decide)
  have h1 := h 1 (by decide)
  have h2 := h 2 (by decide)
  have e3 : runRetry reads 0 3
      = (if retry_if_result_none (reads 0) then
           ((runRetry reads 1 2).1, (runRetry reads 1 2).2.1 + 1,
            wait_fixed :: (runRetry reads 1 2).2.2)
         else (.ok (reads 0), 1, [])) := rfl
  have e2 : runRetry reads 1 2
      = (if retry_if_result_none (reads 1) then
           ((runRetry reads 2 1).1, (runRetry reads 2 1).2.1 + 1,
            wait_fixed :: (runRetry reads 2 1).2.2)
         else (.ok (reads 1), 1, [])) := rfl
  have e1 : runRetry reads 2 1
      = (if retry_if_result_none (reads 2) then ((.error (), 1, []))
         else (.ok (reads 2), 1, [])) := rfl
  have hr : get_weread_books_with_retry reads = (.error (), 3, [wait_fixed, wait_fixed]) := by
    show runRetry reads 0 3 = _
    rw [e3, e2, e1, h0, h1, h2]
    rfl
  have hres : (get_weread_books_with_retry reads).1 = .error () := by rw [hr]
  refine ⟨hres, by rw [hr], by rw [hr], ?_⟩
  intro cfg tok net
  simp only [Script.main, hres]
  split
  · rfl
  · split
    · rfl
    · split
      · rfl
      · rfl

/-- All-present configuration used by witnesses. -/
def cfgAll : Config := ⟨some "c", some "id", some "secret", some "tok", some "tbl"⟩

/-- Witness for C2: with every attempt returning an absent result, the
retry surfaces a failure and a concrete `main` run issues no write call. -/
theorem retry_exhaustion_no_writes_witness :
    (∀ i, i < stop_max_attempt_number →
        retry_if_result_none ((fun _ => (none : Option (List JVal))) i) = true) ∧
    (get_weread_books_with_retry (fun _ => none)).1 = .error () ∧
    (Script.main cfgAll (.exn "e") (fun _ => none) (fun _ => .exn "e")).writeCalls = [] := by
  have h : ∀ i, i < stop_max_attempt_number →
      retry_if_result_none ((fun _ => (none : Option (List JVal))) i) = true :=
    fun _ _ => rfl
  have t := retry_exhaustion_no_writes (fun _ => none) h
  exact ⟨h, t.1, t.2.2.2 cfgAll (.exn "e") (fun _ => .exn "e")⟩

/-! ## Missing configuration (C8) -/

/-- C8 — If any one of the five required configuration values is unset or
empty at startup, validation fails naming that value among the missing
names (the list the abort message joins), and the run aborts with zero
network activity: no token call, no read attempt, no write call. -/
theorem missing_config_aborts (cfg : Config) (n : String) (v : Option String)
    (hmem : (n, v) ∈ required_vars cfg) (hfal : envTruthy v = false) :
    (validate_environment cfg).1 = false ∧
    n ∈ (validate_environment cfg).2 ∧
    (∀ tok reads net, Script.main cfg tok reads net
        = { tokenCalls := 0, readAttempts := 0, writeCalls := [], crashed := false }) := by
  have hn : n ∈ (validate_environment cfg).2 := by
    unfold validate_environment
    exact List.mem_map.mpr ⟨(n, v), List.mem_filter.mpr ⟨hmem, by rw [hfal]; rfl⟩, rfl⟩
  have hv : (validate_environment cfg).1 = false := by
    cases hmm : (validate_environment cfg).1 with
    | false => rfl
    | true =>
        have h2 : (validate_environment cfg).2 = [] := List.isEmpty_iff.mp hmm
        rw [h2] at hn
        cases hn
  exact ⟨hv, hn, fun tok reads net => by simp [Script.main, hv]⟩

/-- Witness for C8: with `FEISHU_APP_ID` unset, validation fails, the name
is reported, and a concrete run makes zero network calls. -/
theorem missing_config_aborts_witness :
    ("FEISHU_APP_ID", (none : Option String))
        ∈ required_vars ⟨some "c", none, some "secret", some "tok", some "tbl"⟩ ∧
    envTruthy (none : Option String) = false ∧
    (validate_environment ⟨some "c", none, some "secret", some "tok", some "tbl"⟩).1 = false ∧
    "FEISHU_APP_ID" ∈ (validate_environment ⟨some "c", none, some "secret", some "tok", some "tbl"⟩).2 ∧
    Script.main ⟨some "c", none, some "secret", some "tok", some "tbl"⟩
        (.exn "e") (fun _ => none) (fun _ => .exn "e")
      = { tokenCalls := 0, readAttempts := 0, writeCalls := [], crashed := false } := by
  have hmem : ("FEISHU_APP_ID", (none : Option String))
      ∈ required_vars ⟨some "c", none, some "secret", some "tok", some "tbl"⟩ := by
    simp [required_vars]
  have t := missing_config_aborts _ _ _ hmem rfl
  exact ⟨hmem, rfl, t.1, t.2.1, t.2.2 (.exn "e") (fun _ => none) (fun _ => .exn "e")⟩

/-! ## Credential fetcher (C9) -/

/-- A response body carrying the success code and a token, used by the C9
counterexample. -/
def tokenBody : JVal := .obj [("code", .int 0), ("tenant_access_token", .str "t")]

/-- C9 counterexample — `get_feishu_access_token` never consults the HTTP
status code: an HTTP 500 response whose JSON body carries `code 0` still
yields the token, refuting the claim that a token is returned only when
the status is 200. -/
theorem token_fetch_ignores_status_counterexample :
    get_feishu_access_token (.resp 500 (some tokenBody)) = .ok (.str "t") ∧
    (500 : Nat) ≠ 200 := ⟨rfl, by decide⟩

/-- C9 (amended) — the fetcher returns a token exactly when the response
body parses as JSON and its embedded `code` equals 0, regardless of the
HTTP status; on every other outcome (embedded error code, network error,
timeout, malformed JSON, non-dict body) it returns a failure carrying a
non-empty human-readable reason.  No retry happens at this layer: the
model consumes a single request outcome. -/
theorem token_fetch_success_iff_code_zero (h : HttpResult) :
    isOkE (get_feishu_access_token h) = tokenSuccessCond h ∧
    (∀ e, get_feishu_access_token h = .error e → e.length ≠ 0) := by
  constructor
  · cases h with
    | exn m => rfl
    | resp s b =>
        cases b with
        | none => rfl
        | some body =>
            cases body with
            | obj kvs =>
                cases hc : pyEqInt ((kvs.lookup "code").getD JVal.null) 0 with
                | true =>
                    simp [get_feishu_access_token, tokenSuccessCond, isOkE, hc]
                | false =>
                    simp [get_feishu_access_token, tokenSuccessCond, isOkE, hc]
            | null => rfl
            | bool bb => rfl
            | int n => rfl
            | str ss => rfl
            | arr xs => rfl
  · intro e he
    have hpos : ∀ (pre tail : String), 0 < pre.length → e = pre ++ tail → e.length ≠ 0 := by
      intro pre tail hpre hee
      rw [hee, String.length_append]
      omega
    cases h with
    | exn m =>
        have : e = "请求飞书API失败: " ++ m := by
          simpa [get_feishu_access_token] using he.symm
        exact hpos _ _ (by decide) this
    | resp s b =>
        cases b with
        | none =>
            have : e = "请求飞书API失败: " ++ "JSONDecodeError" := by
              simpa [get_feishu_access_token] using he.symm
            exact hpos _ _ (by decide) this
        | some body =>
            cases body with
            | obj kvs =>
                cases hc : pyEqInt ((kvs.lookup "code").getD JVal.null) 0 with
                | true => simp [get_feishu_access_token, hc] at he
                | false =>
                    have : e = "获取飞书令牌失败: "
                        ++ pyStr ((kvs.lookup "msg").getD JVal.null) := by
                      simp [get_feishu_access_token, hc] at he
                      exact he.symm
                    exact hpos _ _ (by decide) this
            | null =>
                have : e = "请求飞书API失败: " ++ "AttributeError" := by
                  simpa [get_feishu_access_token] using he.symm
                exact hpos _ _ (by decide) this
            | bool bb =>
                have : e = "请求飞书API失败: " ++ "AttributeError" := by
                  simpa [get_feishu_access_token] using he.symm
                exact hpos _ _ (by decide) this
            | int n =>
                have : e = "请求飞书API失败: " ++ "AttributeError" := by
                  simpa [get_feishu_access_token] using he.symm
                exact hpos _ _ (by decide) this
            | str ss =>
                have : e = "请求飞书API失败: " ++ "AttributeError" := by
                  simpa [get_feishu_access_token] using he.symm
                exact hpos _ _ (by decide) this
            | arr xs =>
                have : e = "请求飞书API失败: " ++ "AttributeError" := by
                  simpa [get_feishu_access_token] using he.symm
                exact hpos _ _ (by decide) this
  
/-- Witness for C9 (amended): a network error yields a failure with a
non-empty reason, and a clean `code 0` response yields a token. -/
theorem token_fetch_success_iff_code_zero_witness :
    isOkE (get_feishu_access_token (.exn "timeout")) = tokenSuccessCond (.exn "timeout") ∧
    ("请求飞书API失败: " ++ "timeout").length ≠ 0 ∧
    isOkE (get_feishu_access_token (.resp 200 (some tokenBody)))
      = tokenSuccessCond (.resp 200 (some tokenBody)) := by
  refine ⟨(token_fetch_success_iff_code_zero (.exn "timeout")).1, ?_,
          (token_fetch_success_iff_code_zero (.resp 200 (some tokenBody))).1⟩
  exact (token_fetch_success_iff_code_zero (.exn "timeout")).2 _ rfl

/-! ## Inversion lemmas for the transform -/

theorem transform_ok_elim (book : JVal) (r : FeishuRecord)
    (h : transform_book_to_feishu_record book = .ok r) :
    ∃ kvs cf catf, bookInfoObj book = some kvs ∧
      coverPart ((kvs.lookup "cover").getD (JVal.str "")) = .ok cf ∧
      categoriesPart ((kvs.lookup "categories").getD JVal.null) = .ok catf ∧
      r.fields = baseFields kvs ++ cf ++ catf ++ finishTimePart kvs := by
  unfold transform_book_to_feishu_record at h
  split at h
  · cases h
  · rename_i kvs heq
    split at h
    · cases h
    · rename_i cf hcov
      split at h
      · cases h
      · rename_i catf hcat
        refine ⟨kvs, cf, catf, ?_, hcov, hcat, ?_⟩
        · cases book with
          | obj bkvs =>
              simp only [pyGet, Except.ok.injEq] at heq
              simp [bookInfoObj, heq]
          | null => simp [pyGet] at heq
          | bool b => simp [pyGet] at heq
          | int n => simp [pyGet] at heq
          | str s => simp [pyGet] at heq
          | arr xs => simp [pyGet] at heq
        · cases h
          rfl
  · cases h

theorem coverPart_ok_shape (cu : JVal) (cf : List (String × JVal))
    (h : coverPart cu = .ok cf) :
    (coverHttp cu = false ∧ cf = []) ∨
    (∃ s, cu = JVal.str s ∧ pyStartsWith s "http" = true ∧ cf = [("封面", attachOf s)]) := by
  unfold coverPart at h
  split at h
  · rename_i htr
    split at h
    · rename_i s
      cases hs : pyStartsWith s "http" with
      | true =>
          right
          refine ⟨s, rfl, hs, ?_⟩
          rw [hs] at h
          simpa using h.symm
      | false =>
          left
          refine ⟨by simp [coverHttp, hs], ?_⟩
          rw [hs] at h
          simpa using h.symm
    · cases h
  · rename_i htr
    left
    refine ⟨?_, by cases h; rfl⟩
    cases cu with
    | str s =>
        have hse : s.isEmpty = true := by
          simp [JVal.truthy] at htr
          exact htr
        have hs0 : s = "" := (String.isEmpty_iff s).mp hse
        subst hs0
        decide
    | null => rfl
    | bool b => rfl
    | int n => rfl
    | arr xs => rfl
    | obj kvs => rfl

theorem categoriesPart_ok_shape (cv : JVal) (catf : List (String × JVal))
    (h : categoriesPart cv = .ok catf) :
    catf = [] ∨ ∃ ts, catf = [("分类", JVal.arr ts)] := by
  unfold categoriesPart at h
  split at h
  · split at h
    · split at h
      · rename_i ts hts
        right
        exact ⟨ts, by cases h; rfl⟩
      · cases h
    · cases h
  · left
    cases h
    rfl

theorem finishTimePart_shape (kvs : List (String × JVal)) :
    finishTimePart kvs = [] ∨ ∃ s, finishTimePart kvs = [("完成时间", JVal.str s)] := by
  unfold finishTimePart
  split
  · split
    · split
      · rename_i s hs
        right
        exact ⟨s, rfl⟩
      · left; rfl
    · left; rfl
  · left; rfl

/-! ## Lookup lemmas over the assembled fields list -/

theorem lookup_title_col (kvs cf catf ftp : List (String × JVal)) :
    List.lookup "书名" (baseFields kvs ++ cf ++ catf ++ ftp)
      = some ((kvs.lookup "title").getD (JVal.str "未知书名")) := rfl

theorem lookup_author_col (kvs cf catf ftp : List (String × JVal)) :
    List.lookup "作者" (baseFields kvs ++ cf ++ catf ++ ftp)
      = some ((kvs.lookup "author").getD (JVal.str "未知作者")) := rfl

theorem lookup_status_col (kvs cf catf ftp : List (String × JVal)) :
    List.lookup "阅读状态" (baseFields kvs ++ cf ++ catf ++ ftp)
      = some (JVal.str (if pyEqInt ((kvs.lookup "markedStatus").getD JVal.null) 4
                        then "读完" else "在读")) := rfl

theorem lookup_time_col (kvs cf catf ftp : List (String × JVal))
    (hcf : cf = [] ∨ ∃ s, cf = [("封面", attachOf s)])
    (hcat : catf = [] ∨ ∃ ts, catf = [("分类", JVal.arr ts)]) :
    List.lookup "完成时间" (baseFields kvs ++ cf ++ catf ++ ftp)
      = List.lookup "完成时间" ftp := by
  rcases hcf with rfl | ⟨s, rfl⟩ <;> rcases hcat with rfl | ⟨ts, rfl⟩ <;> rfl

theorem lookup_cover_col_none (kvs catf ftp : List (String × JVal))
    (hcat : catf = [] ∨ ∃ ts, catf = [("分类", JVal.arr ts)])
    (hftp : ftp = [] ∨ ∃ s, ftp = [("完成时间", JVal.str s)]) :
    List.lookup "封面" (baseFields kvs ++ [] ++ catf ++ ftp) = none := by
  rcases hcat with rfl | ⟨ts, rfl⟩ <;> rcases hftp with rfl | ⟨s, rfl⟩ <;> rfl

theorem lookup_cover_col_some (kvs catf ftp : List (String × JVal)) (s : String) :
    List.lookup "封面" (baseFields kvs ++ [("封面", attachOf s)] ++ catf ++ ftp)
      = some (attachOf s) := rfl

/-! ## Transform claims -/

/-- A source record whose single category entry has no title. -/
def categoryNoTitleBook : JVal :=
  .obj [("book", .obj [("categories", .arr [.obj [("name", .str "fiction")]])])]

/-- A source record whose title key is present with an explicit null. -/
def nullTitleBook : JVal := .obj [("book", .obj [("title", JVal.null)])]

/-- C1 counterexample — the transform is not total on arbitrary JSON
objects and does not guarantee a non-null title: a category entry lacking
a title makes it raise (`x["title"]` is a bare subscript, `KeyError`), and
a source record whose title is an explicit `null` yields a destination
record whose title value is `null` (the `.get` default only covers an
absent key). -/
theorem transform_not_total_counterexample :
    transform_book_to_feishu_record categoryNoTitleBook = .error "KeyError: title" ∧
    (transform_book_to_feishu_record nullTitleBook).map (fun r => r.fields.lookup "书名")
      = .ok (some JVal.null) := ⟨rfl, rfl⟩

/-- C1 (amended) — whenever the transform returns a destination record
(it can raise on a malformed category entry or a truthy non-string
cover), that record always contains the title and author columns: the
source value when the key is present (possibly null), and the placeholder
strings 未知书名 / 未知作者 when the key is absent. -/
theorem transform_title_author_present (book : JVal) (r : FeishuRecord)
    (hok : transform_book_to_feishu_record book = .ok r) :
    ∃ kvs, bookInfoObj book = some kvs ∧
      r.fields.lookup "书名" = some ((kvs.lookup "title").getD (JVal.str "未知书名")) ∧
      r.fields.lookup "作者" = some ((kvs.lookup "author").getD (JVal.str "未知作者")) := by
  obtain ⟨kvs, cf, catf, hbio, hcov, hcat, hf⟩ := transform_ok_elim book r hok
  exact ⟨kvs, hbio,
         by rw [hf]; exact lookup_title_col kvs cf catf _,
         by rw [hf]; exact lookup_author_col kvs cf catf _⟩

/-- Witness for C1 (amended): a record with an empty `book` dict gets both
placeholders. -/
theorem transform_title_author_present_witness :
    transform_book_to_feishu_record (JVal.obj [("book", JVal.obj [])])
        = .ok ⟨[("书名", JVal.str "未知书名"), ("作者", JVal.str "未知作者"),
                ("阅读进度", JVal.int 0), ("阅读状态", JVal.str "在读")]⟩ ∧
    (∃ kvs, bookInfoObj (JVal.obj [("book", JVal.obj [])]) = some kvs ∧
      (⟨[("书名", JVal.str "未知书名"), ("作者", JVal.str "未知作者"),
         ("阅读进度", JVal.int 0), ("阅读状态", JVal.str "在读")]⟩ : FeishuRecord).fields.lookup "书名"
        = some ((kvs.lookup "title").getD (JVal.str "未知书名")) ∧
      (⟨[("书名", JVal.str "未知书名"), ("作者", JVal.str "未知作者"),
         ("阅读进度", JVal.int 0), ("阅读状态", JVal.str "在读")]⟩ : FeishuRecord).fields.lookup "作者"
        = some ((kvs.lookup "author").getD (JVal.str "未知作者"))) :=
  ⟨rfl, transform_title_author_present _ _ rfl⟩

/-- A source record marked as finished (`markedStatus == 4`). -/
def finishedBook : JVal := .obj [("book", .obj [("markedStatus", .int 4)])]

/-- The destination record the transform produces for `finishedBook`. -/
def finishedBookRecord : FeishuRecord :=
  ⟨[("书名", JVal.str "未知书名"), ("作者", JVal.str "未知作者"),
    ("阅读进度", JVal.int 0), ("阅读状态", JVal.str "读完")]⟩

/-- C3 — whenever the transform returns a record, its reading-status
column is a pure function of the source `markedStatus`: 读完 ("finished")
exactly when `markedStatus == 4` in the Python sense, 在读 ("in
progress") for every other value including an absent one; the column is
binary. -/
theorem reading_status_from_marked (book : JVal) (r : FeishuRecord)
    (hok : transform_book_to_feishu_record book = .ok r) :
    r.fields.lookup "阅读状态"
      = some (JVal.str (if pyEqInt (sourceMarkedStatus book) 4 then "读完" else "在读")) ∧
    (r.fields.lookup "阅读状态" = some (JVal.str "读完") ∨
     r.fields.lookup "阅读状态" = some (JVal.str "在读")) := by
  obtain ⟨kvs, cf, catf, hbio, hcov, hcat, hf⟩ := transform_ok_elim book r hok
  have hm : sourceMarkedStatus book = (kvs.lookup "markedStatus").getD JVal.null := by
    simp [sourceMarkedStatus, sourceField, hbio]
  have h1 : r.fields.lookup "阅读状态"
      = some (JVal.str (if pyEqInt ((kvs.lookup "markedStatus").getD JVal.null) 4
                        then "读完" else "在读")) := by
    rw [hf]
    exact lookup_status_col kvs cf catf _
  refine ⟨by rw [h1, hm], ?_⟩
  rw [h1]
  cases hb : pyEqInt ((kvs.lookup "markedStatus").getD JVal.null) 4 with
  | true => left; simp [hb]
  | false => right; simp [hb]

/-- Witness for C3: `markedStatus 4` yields 读完. -/
theorem reading_status_from_marked_witness :
    transform_book_to_feishu_record finishedBook = .ok finishedBookRecord ∧
    finishedBookRecord.fields.lookup "阅读状态" = some (JVal.str "读完") :=
  ⟨rfl, (reading_status_from_marked finishedBook finishedBookRecord rfl).1⟩

/-- A source record with the valid epoch timestamp 1700000000. -/
def finishTimeBook : JVal :=
  .obj [("book", .obj [("finishReadingTime", .int 1700000000)])]

/-- The destination record the transform produces for `finishTimeBook`. -/
def finishTimeBookRecord : FeishuRecord :=
  ⟨[("书名", JVal.str "未知书名"), ("作者", JVal.str "未知作者"),
    ("阅读进度", JVal.int 0), ("阅读状态", JVal.str "在读"),
    ("完成时间", JVal.str "2023-11-14")]⟩

/-- C6 — whenever the transform returns a record: an absent
`finishReadingTime` key, a non-numeric value, or a value outside the
representable date range leaves the completion-date column out entirely,
while a valid epoch timestamp puts the corresponding `YYYY-MM-DD`
calendar date in. -/
theorem completion_date_field (book : JVal) (r : FeishuRecord)
    (hok : transform_book_to_feishu_record book = .ok r) :
    (sourceFinishTime book = none → r.fields.lookup "完成时间" = none) ∧
    (∀ v, sourceFinishTime book = some v → pyTimestamp v = none →
        r.fields.lookup "完成时间" = none) ∧
    (∀ v ts, sourceFinishTime book = some v → pyTimestamp v = some ts →
        epochToDateStr ts = none → r.fields.lookup "完成时间" = none) ∧
    (∀ v ts s, sourceFinishTime book = some v → pyTimestamp v = some ts →
        epochToDateStr ts = some s →
        r.fields.lookup "完成时间" = some (JVal.str s)) := by
  obtain ⟨kvs, cf, catf, hbio, hcov, hcat, hf⟩ := transform_ok_elim book r hok
  have hsf : sourceFinishTime book = kvs.lookup "finishReadingTime" := by
    simp [sourceFinishTime, sourceField, hbio]
  have hcfs : cf = [] ∨ ∃ s, cf = [("封面", attachOf s)] := by
    rcases coverPart_ok_shape _ _ hcov with ⟨_, rfl⟩ | ⟨s, _, _, rfl⟩
    · exact Or.inl rfl
    · exact Or.inr ⟨s, rfl⟩
  have hskip : r.fields.lookup "完成时间" = List.lookup "完成时间" (finishTimePart kvs) := by
    rw [hf]
    exact lookup_time_col kvs cf catf _ hcfs (categoriesPart_ok_shape _ _ hcat)
  refine ⟨?_, ?_, ?_, ?_⟩
  · intro h0
    rw [hsf] at h0
    rw [hskip]
    simp [finishTimePart, h0]
  · intro v hv hts
    rw [hsf] at hv
    rw [hskip]
    simp [finishTimePart, hv, hts]
  · intro v ts hv hts hs
    rw [hsf] at hv
    rw [hskip]
    simp [finishTimePart, hv, hts, hs]
  · intro v ts s hv hts hs
    rw [hsf] at hv
    rw [hskip]
    simp [finishTimePart, hv, hts, hs, List.lookup]

/-- A source record whose numeric timestamp is beyond the representable
date range (year 9999), where `fromtimestamp` raises and the bare
`except` omits the column. -/
def hugeTimeBook : JVal :=
  .obj [("book", .obj [("finishReadingTime", .int 1000000000000000)])]

/-- The destination record the transform produces for `hugeTimeBook`:
no completion-date column. -/
def hugeTimeBookRecord : FeishuRecord :=
  ⟨[("书名", JVal.str "未知书名"), ("作者", JVal.str "未知作者"),
    ("阅读进度", JVal.int 0), ("阅读状态", JVal.str "在读")]⟩

/-- Witness for C6: epoch 1700000000 maps to the calendar date
2023-11-14 and the column is present with exactly that value, while the
out-of-range epoch 10^15 (a present numeric but unparsable timestamp)
leaves the column out. -/
theorem completion_date_field_witness :
    transform_book_to_feishu_record finishTimeBook = .ok finishTimeBookRecord ∧
    epochToDateStr 1700000000 = some "2023-11-14" ∧
    finishTimeBookRecord.fields.lookup "完成时间" = some (JVal.str "2023-11-14") ∧
    transform_book_to_feishu_record hugeTimeBook = .ok hugeTimeBookRecord ∧
    epochToDateStr 1000000000000000 = none ∧
    hugeTimeBookRecord.fields.lookup "完成时间" = none := by
  refine ⟨rfl, rfl, ?_, rfl, rfl, ?_⟩
  · exact (completion_date_field finishTimeBook finishTimeBookRecord rfl).2.2.2
      (JVal.int 1700000000) 1700000000 "2023-11-14" rfl rfl rfl
  · exact (completion_date_field hugeTimeBook hugeTimeBookRecord rfl).2.2.1
      (JVal.int 1000000000000000) 1000000000000000 rfl rfl rfl

/-- A source record with an http-prefixed cover URL. -/
def coverBook : JVal := .obj [("book", .obj [("cover", .str "https://img.example/c.jpg")])]

/-- The destination record the transform produces for `coverBook`. -/
def coverBookRecord : FeishuRecord :=
  ⟨[("书名", JVal.str "未知书名"), ("作者", JVal.str "未知作者"),
    ("阅读进度", JVal.int 0), ("阅读状态", JVal.str "在读"),
    ("封面", attachOf "https://img.example/c.jpg")]⟩

/-- C7 — whenever the transform returns a record: when the cover value is
not a string starting with "http" (absent, empty, falsy, or a non-http
string) the cover column is omitted entirely, and when it is an
http-prefixed string the column is present as the URL-typed attachment
payload. -/
theorem cover_field_condition (book : JVal) (r : FeishuRecord)
    (hok : transform_book_to_feishu_record book = .ok r) :
    (coverHttp (sourceCover book) = false → r.fields.lookup "封面" = none) ∧
    (∀ s, sourceCover book = JVal.str s → pyStartsWith s "http" = true →
        r.fields.lookup "封面" = some (attachOf s)) := by
  obtain ⟨kvs, cf, catf, hbio, hcov, hcat, hf⟩ := transform_ok_elim book r hok
  have hc : sourceCover book = (kvs.lookup "cover").getD (JVal.str "") := by
    simp [sourceCover, sourceField, hbio]
  have hcats := categoriesPart_ok_shape _ _ hcat
  have hftp := finishTimePart_shape kvs
  constructor
  · intro hno
    rcases coverPart_ok_shape _ _ hcov with ⟨hcH, rfl⟩ | ⟨s, hcu, hsw, rfl⟩
    · rw [hf]
      exact lookup_cover_col_none kvs catf _ hcats hftp
    · rw [hc, hcu] at hno
      simp [coverHttp, hsw] at hno
  · intro s hcu hsw
    rcases coverPart_ok_shape _ _ hcov with ⟨hcH, rfl⟩ | ⟨s2, hcu2, hsw2, rfl⟩
    · rw [hc] at hcu
      rw [hcu] at hcH
      simp [coverHttp] at hcH
      rw [hcH] at hsw
      cases hsw
    · rw [hc] at hcu
      rw [hcu2] at hcu
      injection hcu with hss
      subst hss
      rw [hf]
      exact lookup_cover_col_some kvs catf _ s2

/-- Witness for C7: an http-prefixed cover URL is included as the
URL-typed attachment payload. -/
theorem cover_field_condition_witness :
    transform_book_to_feishu_record coverBook = .ok coverBookRecord ∧
    coverBookRecord.fields.lookup "封面"
      = some (attachOf "https://img.example/c.jpg") := by
  refine ⟨rfl, ?_⟩
  exact (cover_field_condition coverBook coverBookRecord rfl).2
    "https://img.example/c.jpg" rfl rfl

/-- Witness for C4: on the 23-record input the writer issues
ceil(23/10) = 3 calls whose concatenation is the input, and the first
chunk (10 records) satisfies the size bound. -/
theorem writer_batches_ceil_ordered_witness :
    ((batch_update_feishu_table records23 net23).calls).length
        = (records23.length + (batch_size - 1)) / batch_size ∧
    ((batch_update_feishu_table records23 net23).calls).flatten = records23 ∧
    (List.replicate 10 (FeishuRecord.mk [])).length ≤ batch_size := by
  have h := writer_batches_ceil_ordered records23 net23
  exact ⟨h.1, h.2.2, h.2.1 (List.replicate 10 (FeishuRecord.mk []))
    (List.mem_cons_self _ _)⟩
